import Mathlib

/-!
Shallow embedding of the screen/audio recording and instant-replay pipeline
of the video-game-browser overlay application, together with proofs about
its specified behaviour.

The embedding covers:
* the output-dimension arithmetic of the region cropper
  (`getOutputDimensions`, `buildStreamOutputDims`);
* the instant-replay buffer controller state machine
  (`RecCtrl` with `startBuffering`, `rotateBuffer`, `saveClip`,
  `stopBuffering`, `restartBuffering`, `startManualRecording`,
  `stopManualRecording`, `manualTick`);
* the standalone audio recorder's elapsed-time cap (`AudioRec`, `audioTick`);
* the main-process file handlers over an explicit file-system model
  (`saveRecording`, `saveAudioRecording`, `deleteAudioFile`, `trimAudio`,
  `readAudioFile`).

JavaScript numbers that matter here are exact decimals; they are modelled
by `JsNum` (integer mantissa and base-ten scale) with meaning in `ℚ`, and
JS rounding is explicit (`jsRound` is `Math.round`, half toward +∞).
String splitting and prefix testing are modelled on the underlying
character lists so that every definition evaluates inside the kernel.
Asynchronous awaits in the source are modelled atomically: the event loop
is single threaded and every controller operation runs to completion
between awaits, so an operation is a function from controller state to
controller state plus the ordered list of externally visible events (`Ev`)
it performs.
-/

namespace VGB

/-! ## JS numeric primitives -/

/-- JS `Math.round`: round half toward positive infinity.
Stated via the executable `Rat.floor`; `jsRound_eq_floor` connects it to
`Int.floor`. -/
def jsRound (q : ℚ) : Int := (q + 1 / 2).floor

/-- An exact decimal value `mant / 10 ^ scale`, the result of JS `Number`
on a decimal numeral.  Kept in integer form so that parsing is kernel
computable; `JsNum.val` gives its rational value. -/
structure JsNum where
  mant : Int
  scale : Nat
  deriving DecidableEq

/-- Rational value of a parsed JS number. -/
def JsNum.val (n : JsNum) : ℚ := (n.mant : ℚ) / (10 ^ n.scale)

/-- Fold a list of decimal digit characters into a natural number. -/
def digitsToNat (cs : List Char) : Nat :=
  cs.foldl (fun acc c => acc * 10 + (c.toNat - 48)) 0

/-- Split a character list on a separator character; JS
`"a:b".split(':')` semantics (`"".split(':')` is `[""]`). -/
def splitOnChar (sep : Char) : List Char → List (List Char)
  | [] => [[]]
  | c :: cs =>
      if c = sep then [] :: splitOnChar sep cs
      else
        match splitOnChar sep cs with
        | [] => [[c]]
        | g :: gs => (c :: g) :: gs

/-- JS whitespace trim on a character list (`Number` trims its input). -/
def trimChars (cs : List Char) : List Char :=
  ((cs.dropWhile Char.isWhitespace).reverse.dropWhile Char.isWhitespace).reverse

/-- Parse an unsigned decimal numeral (`123`, `123.45`, `.5`, `123.`),
returning `none` for anything that JS `Number` maps to `NaN`.  This
models the fragment of JS number syntax the application can feed to
`Number` via aspect-ratio strings. -/
def parseUnsigned (cs : List Char) : Option JsNum :=
  match splitOnChar '.' cs with
  | [ip] =>
      if ip ≠ [] ∧ ip.all Char.isDigit then some ⟨digitsToNat ip, 0⟩ else none
  | [ip, fp] =>
      if (ip ≠ [] ∨ fp ≠ []) ∧ ip.all Char.isDigit ∧ fp.all Char.isDigit then
        some ⟨digitsToNat ip * 10 ^ fp.length + digitsToNat fp, fp.length⟩
      else none
  | _ => none

/-- JS `Number(s)` on the decimal fragment: optional sign, decimal
numeral; the empty (or all-whitespace) string is `0`; `none` stands for
`NaN`. -/
def parseJsNumber (cs : List Char) : Option JsNum :=
  match trimChars cs with
  | [] => some ⟨0, 0⟩
  | c :: rest =>
      if c = '-' then (parseUnsigned rest).map (fun n => ⟨-n.mant, n.scale⟩)
      else if c = '+' then parseUnsigned rest
      else parseUnsigned (c :: rest)

/-! ## Output dimension computation (source: `getOutputDimensions`) -/

/-- `{'720p': 720, '1080p': 1080, '1440p': 1440}[resolution] || 1080`. -/
def shortSideOf (resolution : String) : Int :=
  if resolution = "720p" then 720
  else if resolution = "1080p" then 1080
  else if resolution = "1440p" then 1440
  else 1080

/-- `Number` applied to entry `i` of the split ratio string; a missing
entry is JS `undefined`, which `Number` maps to `NaN` (`none`). -/
def numAt (parts : List (List Char)) (i : Nat) : Option JsNum :=
  match parts[i]? with
  | none => none
  | some s => parseJsNumber s

/-- Embedding of `getOutputDimensions(resolution, aspectRatio)`: splits
the ratio on `:`, converts both parts with `Number`, falls back to
1920×1080 when either part is falsy (`NaN`, missing, or `0` — the JS test
`!aw || !ah`), and otherwise lets the resolution preset fix the shorter
side of the output. -/
def getOutputDimensions (resolution aspectRatio : String) : Int × Int :=
  let short : Int := shortSideOf resolution
  let parts := splitOnChar ':' aspectRatio.data
  match numAt parts 0, numAt parts 1 with
  | some a, some b =>
      if a.mant = 0 ∨ b.mant = 0 then (1920, 1080)
      else if b.val ≤ a.val then (jsRound ((short : ℚ) * (a.val / b.val)), short)
      else (short, jsRound ((short : ℚ) * (b.val / a.val)))
  | _, _ => (1920, 1080)

/-! ## Region cropper output target (source: `buildStream`) -/

/-- Region bounds in CSS pixels. -/
structure RegionBounds where
  x : ℚ
  y : ℚ
  w : ℚ
  h : ℚ
  deriving DecidableEq

/-- The output canvas dimensions chosen by `buildStream`: `some` when the
cropping pipeline is used (region box enabled and bounds present), `none`
when the plain full-screen recording stream is built.  Without the
aspect-ratio lock the source computes `Math.round(w / 2) * 2` and
`Math.round(h / 2) * 2`. -/
def buildStreamOutputDims (regionBoxEnabled : Bool) (regionBounds : Option RegionBounds)
    (customAspectRatio : Bool) (resolution aspectRatioPreset : String) :
    Option (Int × Int) :=
  match regionBoxEnabled, regionBounds with
  | true, some b =>
      if customAspectRatio then some (getOutputDimensions resolution aspectRatioPreset)
      else some (jsRound (b.w / 2) * 2, jsRound (b.h / 2) * 2)
  | _, _ => none

/-! ## Instant-replay buffer controller (source: `useScreenRecorder`)

The controller's mutable refs become the fields of `RecCtrl`; `setStatus`
and `statusRef` always change together in the source and are one field
here.  The composite stream (desktop video, optional system audio,
optional mic, optional audio-mixing context, optional canvas pipeline) is
owned and released as one unit by `releaseStream` in the source, so it is
modelled by a single stream handle: `Ev.trackStopAll` stands for the
source's "stop every track and tear down the canvas/mic/audio-context
resources".  Fresh stream and recorder identities are drawn from
`nextId`. -/

/-- `RecorderStatus`. -/
inductive RecorderStatus where
  | idle
  | recording
  | buffering
  deriving DecidableEq

/-- `MediaRecorder.state` (the states this program observes). -/
inductive RecState where
  | recording
  | inactive
  deriving DecidableEq

/-- A `MediaRecorder` instance: its identity and the stream it records. -/
structure MediaRec where
  id : Nat
  streamId : Nat
  state : RecState
  deriving DecidableEq

/-- Externally visible events of a controller operation, in order. -/
inductive Ev where
  /-- `recorder.stop()` together with its awaited `onstop`. -/
  | recorderStop (id : Nat)
  /-- `recorder.start(1000)` on stream `streamId`. -/
  | recorderStart (id streamId : Nat)
  /-- `getTracks().forEach(t => t.stop())` on the composite stream. -/
  | trackStopAll (streamId : Nat)
  /-- `acquireStream` + `buildStream` producing a fresh stream. -/
  | acquire (streamId : Nat)
  /-- `saveChunks`: the chunk list handed to the file sink. -/
  | fileSave (chunks : List Nat) (tag : String)
  /-- `onSaved` callback. -/
  | savedCb
  /-- `onError` callback. -/
  | errorCb (msg : String)
  deriving DecidableEq

/-- The controller state: one field per mutable ref of the source hook. -/
structure RecCtrl where
  status : RecorderStatus
  /-- `chunksRef`: the in-progress session's chunks. -/
  chunks : List Nat
  /-- `completedChunksRef`: the last completed rotation's chunks. -/
  completedChunks : List Nat
  /-- `bufferElapsedRef`: seconds since the last rotation. -/
  bufferElapsed : Nat
  /-- `elapsedRef`: seconds of manual recording. -/
  elapsed : Nat
  /-- `bufferSeconds` display state. -/
  bufferSeconds : Nat
  /-- `bufferLengthRef`: the rotation period in seconds. -/
  bufferLength : Nat
  /-- `sourceIdRef`. -/
  sourceId : Option String
  /-- `mediaRecorderRef`. -/
  recorder : Option MediaRec
  /-- `streamRef` (the composite stream handle). -/
  stream : Option Nat
  /-- `timerRef ≠ null`: the manual elapsed timer is running. -/
  timerOn : Bool
  /-- `rotationTimerRef ≠ null`: the rotation timer is running. -/
  rotTimerOn : Bool
  /-- Source of fresh stream/recorder identities. -/
  nextId : Nat
  deriving DecidableEq

/-- `releaseStream()`: stop all tracks and drop the composite stream. -/
def releaseStream (s : RecCtrl) : RecCtrl := { s with stream := none }

/-- The events `releaseStream()` performs from state `s`. -/
def releaseEvents (s : RecCtrl) : List Ev :=
  match s.stream with
  | some sid => [Ev.trackStopAll sid]
  | none => []

/-- `createAndStartRecorder(stream)`: clear the chunk list and start a
fresh `MediaRecorder` on the given (existing) stream. -/
def createAndStartRecorder (s : RecCtrl) (sid : Nat) : RecCtrl :=
  { s with
    chunks := []
    recorder := some { id := s.nextId, streamId := sid, state := RecState.recording }
    nextId := s.nextId + 1 }

/-- `saveChunks(chunks, tag)` in the renderer: empty input reports an
error; otherwise the concatenated payload is handed to the file sink and
`onSaved` (or `onError`, when the IPC save fails) fires. -/
def saveChunksEv (chunks : List Nat) (tag : String) (ipcOk : Bool) : List Ev :=
  if chunks = [] then [Ev.errorCb "No data to save"]
  else Ev.fileSave chunks tag :: (if ipcOk then [Ev.savedCb] else [Ev.errorCb "Failed to save"])

/-- `rotateBuffer()`: stop the current recorder (awaited), move its chunks
into `completedChunks`, reset the rotation counter, and start a fresh
recorder on the same stream.  A no-op unless a recorder and stream exist
and the controller is buffering. -/
def rotateBuffer (s : RecCtrl) : RecCtrl × List Ev :=
  match s.recorder, s.stream with
  | some r, some sid =>
      if s.status = RecorderStatus.buffering then
        let s1 := { s with
          recorder := some { r with state := RecState.inactive }
          completedChunks := s.chunks
          chunks := []
          bufferElapsed := 0 }
        (createAndStartRecorder s1 sid,
          [Ev.recorderStop r.id, Ev.recorderStart s1.nextId sid])
      else (s, [])
  | _, _ => (s, [])

/-- The rotation-timer tick installed by `startBuffering`: advance the
per-second counter, update the display, rotate at the threshold. -/
def bufferTick (s : RecCtrl) : RecCtrl × List Ev :=
  if s.rotTimerOn then
    let s1 := { s with bufferElapsed := s.bufferElapsed + 1 }
    let s2 := { s1 with bufferSeconds := min s1.bufferElapsed s1.bufferLength }
    if s2.bufferLength ≤ s2.bufferElapsed then rotateBuffer s2 else (s2, [])
  else (s, [])

/-- `mediaRecorderRef.current && mediaRecorderRef.current.state === 'recording'`. -/
def recorderLive (o : Option MediaRec) : Bool :=
  match o with
  | some r => r.state == RecState.recording
  | none => false

/-- The common "restart buffering" tail of `saveClip`: if the recorder is
still running (the completed-rotation path) only the rotation bookkeeping
is reset; otherwise the stream is released and re-acquired and a fresh
recorder started; without a stream or source id the controller falls back
to idle. -/
def saveClipRestart (s1 : RecCtrl) (acqOk : Bool) : RecCtrl × List Ev :=
  match s1.stream, s1.sourceId with
  | some sid, some _ =>
      if recorderLive s1.recorder then
        ({ s1 with
            completedChunks := []
            bufferElapsed := s1.chunks.length
            bufferSeconds := min s1.chunks.length s1.bufferLength
            rotTimerOn := true }, [])
      else
        let s2 := releaseStream { s1 with completedChunks := [], bufferElapsed := 0 }
        if acqOk then
          let sid2 := s2.nextId
          let s3 := { s2 with stream := some sid2, nextId := s2.nextId + 1 }
          ({ createAndStartRecorder s3 sid2 with rotTimerOn := true, bufferSeconds := 0 },
            [Ev.trackStopAll sid, Ev.acquire sid2, Ev.recorderStart s3.nextId sid2])
        else
          ({ s2 with status := RecorderStatus.idle, bufferSeconds := 0 },
            [Ev.trackStopAll sid, Ev.errorCb "Failed to restart buffer"])
  | _, _ =>
      ({ releaseStream s1 with status := RecorderStatus.idle, bufferSeconds := 0 },
        releaseEvents s1)

/-- The part of `saveClip` after the clip chunks have been chosen:
an empty clip reports the empty-buffer condition and restarts the
recorder and rotation timer on the same stream; a non-empty clip is
handed to `saveChunks` and buffering is then restarted. -/
def saveClipAfter (s1 : RecCtrl) (clip : List Nat) (tr1 : List Ev)
    (acqOk ipcOk : Bool) : RecCtrl × List Ev :=
  if clip = [] then
    match s1.stream, s1.sourceId with
    | some sid, some _ =>
        ({ createAndStartRecorder { s1 with completedChunks := [], bufferElapsed := 0 } sid
            with rotTimerOn := true },
          tr1 ++ [Ev.errorCb "Buffer is empty, nothing to clip", Ev.recorderStart s1.nextId sid])
    | _, _ => (s1, tr1 ++ [Ev.errorCb "Buffer is empty, nothing to clip"])
  else
    ((saveClipRestart s1 acqOk).1,
      tr1 ++ saveChunksEv clip "clip" ipcOk ++ (saveClipRestart s1 acqOk).2)

/-- `saveClip()`: only meaningful while buffering with a recorder.  Clears
the rotation timer, prefers the completed rotation's chunks (leaving the
running session untouched), otherwise stops the in-progress session and
takes its chunks, then saves and restarts per `saveClipAfter`. -/
def saveClip (s : RecCtrl) (acqOk ipcOk : Bool) : RecCtrl × List Ev :=
  match s.recorder with
  | none => (s, [])
  | some r =>
      if s.status = RecorderStatus.buffering then
        let s0 := { s with rotTimerOn := false }
        if s0.completedChunks = [] then
          saveClipAfter
            { s0 with recorder := some { r with state := RecState.inactive }, chunks := [] }
            s0.chunks [Ev.recorderStop r.id] acqOk ipcOk
        else
          saveClipAfter { s0 with completedChunks := [] } s0.completedChunks [] acqOk ipcOk
      else (s, [])

/-- `startBuffering(sourceId)`: only from idle; acquire and build the
composite stream, reset the buffer bookkeeping, start a recorder and the
rotation timer.  On acquisition failure report the error and release. -/
def startBuffering (s : RecCtrl) (srcId : String) (acqOk : Bool) : RecCtrl × List Ev :=
  if s.status = RecorderStatus.idle then
    if acqOk then
      let sid := s.nextId
      let s1 := { s with
        stream := some sid
        nextId := s.nextId + 1
        sourceId := some srcId
        completedChunks := []
        bufferElapsed := 0 }
      ({ createAndStartRecorder s1 sid with
          status := RecorderStatus.buffering, bufferSeconds := 0, rotTimerOn := true },
        [Ev.acquire sid, Ev.recorderStart s1.nextId sid])
    else
      (releaseStream s, Ev.errorCb "Failed to start buffering" :: releaseEvents s)
  else (s, [])

/-- `stopBuffering()`: cancel the rotation timer, stop the recorder and
discard every chunk, release the stream, return to idle. -/
def stopBuffering (s : RecCtrl) : RecCtrl × List Ev :=
  match s.recorder with
  | none => (s, [])
  | some r =>
      if s.status = RecorderStatus.buffering then
        let s1 := { s with
          rotTimerOn := false
          chunks := []
          completedChunks := []
          recorder := some { r with state := RecState.inactive } }
        ({ releaseStream s1 with status := RecorderStatus.idle, bufferSeconds := 0 },
          Ev.recorderStop r.id :: releaseEvents s1)
      else (s, [])

/-- `restartBuffering()`: stop and release everything (awaited), report
idle transiently, then re-acquire with the remembered source id and start
again; on re-acquisition failure stay idle and report the error. -/
def restartBuffering (s : RecCtrl) (acqOk : Bool) : RecCtrl × List Ev :=
  match s.recorder with
  | none => (s, [])
  | some r =>
      if s.status = RecorderStatus.buffering then
        match s.sourceId with
        | none => (s, [])
        | some _ =>
            let s1 := { s with
              rotTimerOn := false
              chunks := []
              completedChunks := []
              recorder := some { r with state := RecState.inactive } }
            let s2 := { releaseStream s1 with
              status := RecorderStatus.idle, bufferSeconds := 0 }
            if acqOk then
              let sid := s2.nextId
              let s3 := { s2 with
                stream := some sid
                nextId := s2.nextId + 1
                completedChunks := []
                bufferElapsed := 0 }
              ({ createAndStartRecorder s3 sid with
                  status := RecorderStatus.buffering, rotTimerOn := true },
                Ev.recorderStop r.id :: releaseEvents s1
                  ++ [Ev.acquire sid, Ev.recorderStart s3.nextId sid])
            else
              (s2, Ev.recorderStop r.id :: releaseEvents s1
                ++ [Ev.errorCb "Failed to restart buffer"])
      else (s, [])

/-- The manual recorder's `onstop` handler: save the collected chunks,
release the stream, clear the elapsed timer, return to idle. -/
def manualOnStop (s : RecCtrl) (ipcOk : Bool) : RecCtrl × List Ev :=
  let trSave := saveChunksEv s.chunks "recording" ipcOk
  let s1 := releaseStream { s with chunks := [] }
  ({ s1 with
      status := RecorderStatus.idle
      elapsed := 0
      timerOn := false
      recorder := s.recorder.map (fun r => { r with state := RecState.inactive }) },
    trSave ++ releaseEvents s)

/-- `startManualRecording(sourceId)`: only from idle; acquire and build
the stream, start a recorder and the elapsed timer.  On acquisition
failure report the error and release. -/
def startManualRecording (s : RecCtrl) (srcId : String) (acqOk : Bool) : RecCtrl × List Ev :=
  if s.status = RecorderStatus.idle then
    if acqOk then
      let sid := s.nextId
      let s1 := { s with
        stream := some sid
        nextId := s.nextId + 1
        sourceId := some srcId
        chunks := [] }
      ({ s1 with
          recorder := some { id := s1.nextId, streamId := sid, state := RecState.recording }
          nextId := s1.nextId + 1
          status := RecorderStatus.recording
          elapsed := 0
          timerOn := true },
        [Ev.acquire sid, Ev.recorderStart s1.nextId sid])
    else
      (releaseStream s, Ev.errorCb "Failed to start recording" :: releaseEvents s)
  else (s, [])

/-- `stopManualRecording()`: stop the recorder, which runs the manual
`onstop` handler. -/
def stopManualRecording (s : RecCtrl) (ipcOk : Bool) : RecCtrl × List Ev :=
  match s.recorder with
  | none => (s, [])
  | some r =>
      if s.status = RecorderStatus.recording then
        ((manualOnStop s ipcOk).1, Ev.recorderStop r.id :: (manualOnStop s ipcOk).2)
      else (s, [])

/-- The per-second elapsed-timer tick of a manual recording: increment
`elapsed` and, once it reaches `MAX_RECORDING_SECONDS = 1800`, trigger
`mediaRecorderRef.current?.stop()`. -/
def manualTick (s : RecCtrl) (ipcOk : Bool) : RecCtrl × List Ev :=
  if s.timerOn then
    let s1 := { s with elapsed := s.elapsed + 1 }
    if 1800 ≤ s1.elapsed then
      match s1.recorder with
      | some r =>
          if r.state = RecState.recording then
            ((manualOnStop s1 ipcOk).1, Ev.recorderStop r.id :: (manualOnStop s1 ipcOk).2)
          else (s1, [])
      | none => (s1, [])
    else (s1, [])
  else (s, [])

/-- `n` elapsed-timer ticks of a manual recording. -/
def manualTickN (ipcOk : Bool) : Nat → RecCtrl → RecCtrl
  | 0, s => s
  | n + 1, s => (manualTick (manualTickN ipcOk n s) ipcOk).1

/-! ## Standalone audio recorder (source: `useAudioRecorder`) -/

/-- The audio-only recorder's state: one field per mutable ref. -/
structure AudioRec where
  isRecording : Bool
  elapsed : Nat
  timerOn : Bool
  recorderActive : Bool
  chunks : List Nat
  deriving DecidableEq

/-- The audio recorder's `onstop` handler: release streams, clear the
timer and state, then hand the chunks to the MP3 conversion (or report
an empty recording). -/
def audioOnStop (a : AudioRec) (ipcOk : Bool) : AudioRec × List Ev :=
  (⟨false, 0, false, false, []⟩,
    if a.chunks = [] then [Ev.errorCb "No audio data recorded"]
    else Ev.fileSave a.chunks "audio"
      :: (if ipcOk then [Ev.savedCb] else [Ev.errorCb "Failed to save audio"]))

/-- The per-second tick of the audio recorder's elapsed timer: increment
`elapsed` and, once it reaches `MAX_AUDIO_RECORDING_SECONDS = 1800`,
trigger `mediaRecorderRef.current?.stop()`. -/
def audioTick (a : AudioRec) (ipcOk : Bool) : AudioRec × List Ev :=
  if a.timerOn then
    let a1 := { a with elapsed := a.elapsed + 1 }
    if 1800 ≤ a1.elapsed then
      if a1.recorderActive then
        ((audioOnStop a1 ipcOk).1, Ev.recorderStop 0 :: (audioOnStop a1 ipcOk).2)
      else (a1, [])
    else (a1, [])
  else (a, [])

/-- `n` elapsed-timer ticks of the audio recorder. -/
def audioTickN (ipcOk : Bool) : Nat → AudioRec → AudioRec
  | 0, a => a
  | n + 1, a => (audioTick (audioTickN ipcOk n a) ipcOk).1

/-! ## Main-process file handlers (source: `ipcMain.handle` registrations)

The file-system sink is an association list from absolute path strings to
file contents.  FFmpeg is the black-box external tool: its outcome is a
boolean parameter of each handler, and its outputs are marked contents
(`Content.faststarted`, `Content.mp3`, `Content.clipped`).  JS
`String.prototype.startsWith` is modelled on the underlying character
lists (`jsStartsWith`). -/

deriving instance DecidableEq for Except

/-- File contents: raw bytes or the marked result of an FFmpeg step. -/
inductive Content where
  /-- Bytes written directly from a recording buffer. -/
  | raw (bytes : List Nat)
  /-- The faststart remux of a raw video payload. -/
  | faststarted (bytes : List Nat)
  /-- The MP3 transcode of a raw audio payload. -/
  | mp3 (bytes : List Nat)
  /-- A stream-copied time range of an existing file. -/
  | clipped (source : Content) (startSec endSec : Int)
  deriving DecidableEq

/-- The file system: path ↦ contents. -/
def FS : Type := String → Option Content

/-- The empty file system. -/
def fsEmpty : FS := fun _ => none

/-- Read a file. -/
def fsRead (fs : FS) (p : String) : Option Content := fs p

/-- `existsSync`. -/
def fsExists (fs : FS) (p : String) : Bool :=
  (fsRead fs p).isSome

/-- `unlinkSync`. -/
def fsRemove (fs : FS) (p : String) : FS :=
  fun q => if q = p then none else fs q

/-- `writeFileSync` (overwrite). -/
def fsWrite (fs : FS) (p : String) (c : Content) : FS :=
  fun q => if q = p then some c else fs q

/-- `app.getPath('userData')`, abstract but fixed. -/
def userDataPath : String := "/userData"

/-- `join(app.getPath('userData'), 'recordings')`. -/
def recordingsPath : String := userDataPath ++ "/recordings"

/-- `join(app.getPath('userData'), 'recordings', 'audio')`. -/
def audioDirPath : String := recordingsPath ++ "/audio"

/-- JS `s.startsWith(pre)`, on the character lists. -/
def jsStartsWith (s pre : String) : Bool :=
  pre.data.isPrefixOf s.data

/-- What the spec means by "inside the recordings-audio directory": the
path names an entry of that directory (directory path followed by a
separator).  This is the spec-side notion the handlers' prefix test is
meant to implement. -/
def insideAudioDir (p : String) : Bool :=
  jsStartsWith p (audioDirPath ++ "/")

/-- The `save-recording` handler: write the buffer, then re-mux with
faststart into a temporary file and atomically replace the original; on
remux failure delete any temporary file, keep the raw file, and still
resolve with its path.  `remuxOk` is FFmpeg's outcome; `tempOnFail`
says whether the failed FFmpeg run had already created the temporary
file. -/
def saveRecording (fs : FS) (buffer : List Nat) (filename : Option String)
    (ts : String) (remuxOk tempOnFail : Bool) : FS × Except String String :=
  if buffer = [] then (fs, Except.error "Received empty or null recording buffer")
  else
    let finalName := filename.getD ("recording-" ++ ts ++ ".mp4")
    let filePath := recordingsPath ++ "/" ++ finalName
    let fs1 := fsWrite fs filePath (Content.raw buffer)
    let tempPath := filePath ++ ".tmp.mp4"
    if remuxOk then
      let fs2 := fsWrite fs1 tempPath (Content.faststarted buffer)
      let fs3 := fsRemove fs2 filePath
      let fs4 := fsWrite (fsRemove fs3 tempPath) filePath (Content.faststarted buffer)
      (fs4, Except.ok filePath)
    else
      let fs2 := if tempOnFail then fsWrite fs1 tempPath (Content.raw []) else fs1
      let fs3 := if fsExists fs2 tempPath then fsRemove fs2 tempPath else fs2
      (fs3, Except.ok filePath)

/-- The `save-audio-recording` handler: write the WebM buffer to a
temporary file, transcode it to MP3; on success delete the temporary and
resolve with the MP3 path, on failure delete the temporary and reject.
`transcodeOk` is FFmpeg's outcome; `partialOnFail` says whether the
failed FFmpeg run (invoked with `-y finalPath`) had already created a
partial output file there — the handler's catch block removes only the
temporary, never `finalPath`. -/
def saveAudioRecording (fs : FS) (buffer : List Nat) (filename : Option String)
    (ts : String) (transcodeOk partialOnFail : Bool) : FS × Except String String :=
  if buffer = [] then (fs, Except.error "Received empty or null audio buffer")
  else
    let tempPath := audioDirPath ++ "/audio-temp-" ++ ts ++ ".webm"
    let finalName := filename.getD ("audio-" ++ ts ++ ".mp3")
    let finalPath := audioDirPath ++ "/" ++ finalName
    let fs1 := fsWrite fs tempPath (Content.raw buffer)
    if transcodeOk then
      let fs2 := fsWrite fs1 finalPath (Content.mp3 buffer)
      let fs3 := if fsExists fs2 tempPath then fsRemove fs2 tempPath else fs2
      (fs3, Except.ok finalPath)
    else
      let fs2 := if partialOnFail then fsWrite fs1 finalPath (Content.raw []) else fs1
      let fs3 := if fsExists fs2 tempPath then fsRemove fs2 tempPath else fs2
      (fs3, Except.error "Audio conversion failed")

/-- The `delete-audio-file` handler: reject paths failing the
`startsWith` test, otherwise unlink when the file exists. -/
def deleteAudioFile (fs : FS) (filePath : String) : FS × Except String Bool :=
  if jsStartsWith filePath audioDirPath = false then
    (fs, Except.error "Cannot delete files outside the audio directory")
  else if fsExists fs filePath then (fsRemove fs filePath, Except.ok true)
  else (fs, Except.ok false)

/-- `filePath.replace(/\.mp3$/i, '')`. -/
def stripMp3Suffix (p : String) : String :=
  if (p.data.reverse.take 4).map Char.toLower = ['3', 'p', 'm', '.'] then
    String.mk (p.data.take (p.data.length - 4))
  else p

/-- The `trim-audio` handler: reject paths failing the `startsWith` test
or naming no file; otherwise stream-copy the requested range into a
sibling `_trimmed_` file; on FFmpeg failure delete any partial output and
reject.  `trimOk` is FFmpeg's outcome; `partialOnFail` says whether the
failed run had already created the output file. -/
def trimAudio (fs : FS) (filePath : String) (startSec endSec : Int)
    (ts : String) (trimOk partialOnFail : Bool) : FS × Except String String :=
  if jsStartsWith filePath audioDirPath = false then
    (fs, Except.error "Cannot trim files outside the audio directory")
  else
    match fsRead fs filePath with
    | none => (fs, Except.error "Source file not found")
    | some c =>
        let trimmedPath := stripMp3Suffix filePath ++ "_trimmed_" ++ ts ++ ".mp3"
        if trimOk then
          (fsWrite fs trimmedPath (Content.clipped c startSec endSec), Except.ok trimmedPath)
        else
          let fs1 := if partialOnFail then fsWrite fs trimmedPath (Content.raw []) else fs
          let fs2 := if fsExists fs1 trimmedPath then fsRemove fs1 trimmedPath else fs1
          (fs2, Except.error "Trim failed")

/-- The `read-audio-file` handler: `null` for paths failing the
`startsWith` test or naming no file, otherwise the file's bytes. -/
def readAudioFile (fs : FS) (filePath : String) : Option Content :=
  if jsStartsWith filePath audioDirPath = false then none
  else if fsExists fs filePath = false then none
  else fsRead fs filePath

/-- The renderer-side continuation of an IPC save call: `onSaved` on a
resolved promise, `onError` on a rejected one. -/
def rendererSaveOutcome (result : Except String String) : List Ev :=
  match result with
  | Except.ok _ => [Ev.savedCb]
  | Except.error _ => [Ev.errorCb "Failed to save"]

/-! ## Concrete states used by the witnesses -/

/-- A buffering controller with one completed rotation available. -/
def bufStateW : RecCtrl :=
  { status := RecorderStatus.buffering
    chunks := [10, 11]
    completedChunks := [1, 2, 3]
    bufferElapsed := 2
    elapsed := 0
    bufferSeconds := 2
    bufferLength := 30
    sourceId := some "screen:0:0"
    recorder := some { id := 5, streamId := 7, state := RecState.recording }
    stream := some 7
    timerOn := false
    rotTimerOn := true
    nextId := 8 }

/-- A buffering controller that has collected no data at all. -/
def bufStateEmptyW : RecCtrl :=
  { status := RecorderStatus.buffering
    chunks := []
    completedChunks := []
    bufferElapsed := 0
    elapsed := 0
    bufferSeconds := 0
    bufferLength := 30
    sourceId := some "screen:0:0"
    recorder := some { id := 5, streamId := 7, state := RecState.recording }
    stream := some 7
    timerOn := false
    rotTimerOn := true
    nextId := 8 }

/-- A freshly started manual recording. -/
def recStateW : RecCtrl :=
  { status := RecorderStatus.recording
    chunks := [20]
    completedChunks := []
    bufferElapsed := 0
    elapsed := 0
    bufferSeconds := 0
    bufferLength := 30
    sourceId := some "screen:0:0"
    recorder := some { id := 2, streamId := 1, state := RecState.recording }
    stream := some 1
    timerOn := true
    rotTimerOn := false
    nextId := 3 }

/-- A freshly started audio-only recording. -/
def audioStateW : AudioRec :=
  { isRecording := true
    elapsed := 0
    timerOn := true
    recorderActive := true
    chunks := [42] }

/-! ## Rounding lemmas -/

theorem jsRound_eq_floor (q : ℚ) : jsRound q = ⌊q + 1 / 2⌋ := by
  rw [jsRound, Rat.floor_def', ← Rat.floor_def]

theorem floor_one_half : ⌊(1 / 2 : ℚ)⌋ = 0 := by
  rw [Int.floor_eq_zero_iff]
  constructor <;> norm_num

theorem jsRound_intCast (n : Int) : jsRound (n : ℚ) = n := by
  rw [jsRound_eq_floor, Int.floor_int_add, floor_one_half, add_zero]

/-- `Math.round(n / 2) * 2` on an integer `n`: unchanged when `n` is even,
rounded up to the next even integer when `n` is odd. -/
theorem jsRound_half_mul_two (n : Int) :
    jsRound ((n : ℚ) / 2) * 2 = if 2 ∣ n then n else n + 1 := by
  rw [jsRound_eq_floor]
  rcases Int.even_or_odd n with ⟨k, hk⟩ | ⟨k, hk⟩
  · subst hk
    have h2 : ((k + k : ℤ) : ℚ) / 2 + 1 / 2 = (k : ℚ) + 1 / 2 := by
      push_cast
      ring
    rw [h2, Int.floor_int_add, floor_one_half, if_pos ⟨k, by ring⟩]
    ring
  · subst hk
    have h2 : ((2 * k + 1 : ℤ) : ℚ) / 2 + 1 / 2 = ((k + 1 : ℤ) : ℚ) := by
      push_cast
      ring
    rw [h2, Int.floor_intCast, if_neg (by omega)]
    ring

theorem jsNum_val_scale_zero (m : Int) : (JsNum.mk m 0).val = (m : ℚ) := by
  simp [JsNum.val]

/-! ## C3: even-dimension rounding of the region box -/

/-- C3, counterexample: with region cropping active and the aspect-ratio
lock off, a region of `w = 401, h = 226` yields an output target of
`402×226` — the odd width is rounded **up** to the nearest even integer
by `Math.round(w / 2) * 2` — not the `400×226` the claim states. -/
theorem C3_counterexample :
    buildStreamOutputDims true (some ⟨100, 100, 401, 226⟩) false "1080p" "16:9"
        = some (402, 226) ∧
    buildStreamOutputDims true (some ⟨100, 100, 401, 226⟩) false "1080p" "16:9"
        ≠ some (400, 226) := by
  have h401 : jsRound ((401 : ℚ) / 2) * 2 = 402 := by
    have h := jsRound_half_mul_two 401
    rw [if_neg (by norm_num), show ((401 : ℤ) : ℚ) = (401 : ℚ) from by norm_cast] at h
    rw [h]
    decide
  have h226 : jsRound ((226 : ℚ) / 2) * 2 = 226 := by
    have h := jsRound_half_mul_two 226
    rw [if_pos (by norm_num), show ((226 : ℤ) : ℚ) = (226 : ℚ) from by norm_cast] at h
    exact h
  have hmain : buildStreamOutputDims true (some ⟨100, 100, 401, 226⟩) false "1080p" "16:9"
      = some (402, 226) := by
    simp only [buildStreamOutputDims, Bool.false_eq_true, if_false]
    rw [h401, h226]
  exact ⟨hmain, by rw [hmain]; decide⟩

/-- C3, amended: with region cropping active and the aspect-ratio lock
off, the output target is `(Math.round(w/2)*2, Math.round(h/2)*2)`; on an
integer dimension this keeps an even value and rounds an odd value **up**
to the next even integer (so `401×226 ↦ 402×226`). -/
theorem C3_amended :
    (∀ (b : RegionBounds) (res preset : String),
        buildStreamOutputDims true (some b) false res preset
          = some (jsRound (b.w / 2) * 2, jsRound (b.h / 2) * 2)) ∧
    (∀ n : Int, jsRound ((n : ℚ) / 2) * 2 = if 2 ∣ n then n else n + 1) := by
  refine ⟨fun b res preset => rfl, jsRound_half_mul_two⟩

/-! ## C10: aspect-ratio-locked output dimensions -/

/-- C10, counterexample: the ratio string `"-1:2"` does not parse into
two positive numbers, yet `getOutputDimensions` does not fall back to
1920×1080 for it: JS `Number('-1')` is `-1`, which is truthy, so the
negative value flows into the arithmetic and the result is
`(1080, -2160)`. -/
theorem C10_counterexample :
    getOutputDimensions "1080p" "-1:2" = (1080, -2160) ∧
    getOutputDimensions "1080p" "-1:2" ≠ (1920, 1080) := by
  have e0 : numAt (splitOnChar ':' "-1:2".data) 0 = some ⟨-1, 0⟩ := by decide
  have e1 : numAt (splitOnChar ':' "-1:2".data) 1 = some ⟨2, 0⟩ := by decide
  have hle : ¬ ((JsNum.mk 2 0).val ≤ (JsNum.mk (-1) 0).val) := by
    rw [jsNum_val_scale_zero, jsNum_val_scale_zero]
    norm_num
  have hround : jsRound ((shortSideOf "1080p" : ℚ)
      * ((JsNum.mk 2 0).val / (JsNum.mk (-1) 0).val)) = -2160 := by
    rw [jsNum_val_scale_zero, jsNum_val_scale_zero,
      show shortSideOf "1080p" = (1080 : ℤ) from rfl,
      show ((1080 : ℤ) : ℚ) * (((2 : Int) : ℚ) / ((-1 : Int) : ℚ))
        = ((-2160 : ℤ) : ℚ) from by push_cast; norm_num,
      jsRound_intCast]
  have hmain : getOutputDimensions "1080p" "-1:2" = (1080, -2160) := by
    simp only [getOutputDimensions, e0, e1]
    rw [if_neg (by decide), if_neg hle, hround]
    rfl
  exact ⟨hmain, by rw [hmain]; decide⟩

/-- C10, amended: the resolution preset fixes the shorter side (720, 1080
or 1440 for the known presets, 1080 for any unknown preset); when both
ratio components parse as **positive** numbers, `a ≥ b` yields
`(round(short·a/b), short)` and `a < b` yields `(short, round(short·b/a))`;
the 1920×1080 fallback applies when a component is missing, fails to
parse (`NaN`), or parses as `0` — a **negative** component is *not*
defaulted but flows into the arithmetic. -/
theorem C10_amended :
    (∀ (res ratio : String) (a b : JsNum),
        numAt (splitOnChar ':' ratio.data) 0 = some a →
        numAt (splitOnChar ':' ratio.data) 1 = some b →
        0 < a.mant → 0 < b.mant →
        getOutputDimensions res ratio =
          if b.val ≤ a.val then
            (jsRound ((shortSideOf res : ℚ) * (a.val / b.val)), shortSideOf res)
          else
            (shortSideOf res, jsRound ((shortSideOf res : ℚ) * (b.val / a.val)))) ∧
    (∀ res ratio : String,
        (numAt (splitOnChar ':' ratio.data) 0 = none ∨
          numAt (splitOnChar ':' ratio.data) 1 = none ∨
          (∃ a, numAt (splitOnChar ':' ratio.data) 0 = some a ∧ a.mant = 0) ∨
          (∃ b, numAt (splitOnChar ':' ratio.data) 1 = some b ∧ b.mant = 0)) →
        getOutputDimensions res ratio = (1920, 1080)) ∧
    shortSideOf "720p" = 720 ∧ shortSideOf "1080p" = 1080 ∧
    shortSideOf "1440p" = 1440 ∧
    (∀ res : String, res ≠ "720p" → res ≠ "1080p" → res ≠ "1440p" →
        shortSideOf res = 1080) := by
  refine ⟨?_, ?_, rfl, rfl, rfl, ?_⟩
  · intro res ratio a b h0 h1 ha hb
    simp only [getOutputDimensions, h0, h1]
    rw [if_neg (by omega)]
  · intro res ratio h
    rcases h with h | h | ⟨a, h0, ha⟩ | ⟨b, h1, hb⟩
    · simp only [getOutputDimensions, h]
    · rcases h0 : numAt (splitOnChar ':' ratio.data) 0 with _ | a <;>
        simp only [getOutputDimensions, h0, h]
    · rcases h1 : numAt (splitOnChar ':' ratio.data) 1 with _ | b
      · simp only [getOutputDimensions, h0, h1]
      · simp only [getOutputDimensions, h0, h1]
        rw [if_pos (Or.inl ha)]
    · rcases h0 : numAt (splitOnChar ':' ratio.data) 0 with _ | a
      · simp only [getOutputDimensions, h0, h1]
      · simp only [getOutputDimensions, h0, h1]
        rw [if_pos (Or.inr hb)]
  · intro res h1 h2 h3
    simp only [shortSideOf, if_neg h1, if_neg h2, if_neg h3]

/-- C10, witness: instantiates the amended theorem at `"720p"`/`"16:9"`
(both components positive) and at `"1080p"`/`"0:5"` (zero component). -/
theorem C10_witness :
    (getOutputDimensions "720p" "16:9" =
      if (JsNum.mk 9 0).val ≤ (JsNum.mk 16 0).val then
        (jsRound ((shortSideOf "720p" : ℚ) * ((JsNum.mk 16 0).val / (JsNum.mk 9 0).val)),
          shortSideOf "720p")
      else
        (shortSideOf "720p",
          jsRound ((shortSideOf "720p" : ℚ) * ((JsNum.mk 9 0).val / (JsNum.mk 16 0).val)))) ∧
    getOutputDimensions "1080p" "0:5" = (1920, 1080) :=
  ⟨C10_amended.1 "720p" "16:9" ⟨16, 0⟩ ⟨9, 0⟩ (by decide) (by decide)
      (by decide) (by decide),
    C10_amended.2.1 "1080p" "0:5"
      (Or.inr (Or.inr (Or.inl ⟨⟨0, 0⟩, by decide, rfl⟩)))⟩

/-! ## C1, C2, C4, C5: the buffer controller state machine -/

/-- C1: `saveClip()` while buffering with a non-empty `completedChunks`
(and a live session, stream and source id, as buffering guarantees):
the saved clip is exactly the `completedChunks` list (the single
`fileSave` event), `completedChunks` is cleared, the in-progress recorder
session is neither stopped nor restarted (no `recorderStop`,
`recorderStart`, `trackStopAll` or `acquire` event occurs and the
recorder field is untouched), and the controller is still buffering with
the rotation timer running. -/
theorem C1_saveClip_completed (s : RecCtrl) (r : MediaRec) (sid : Nat) (src : String)
    (c : List Nat) (acqOk ipcOk : Bool)
    (hst : s.status = RecorderStatus.buffering)
    (hr : s.recorder = some r) (hlive : r.state = RecState.recording)
    (hs : s.stream = some sid) (hsrc : s.sourceId = some src)
    (hc : s.completedChunks = c) (hne : c ≠ []) :
    (saveClip s acqOk ipcOk).2
      = Ev.fileSave c "clip"
          :: (if ipcOk then [Ev.savedCb] else [Ev.errorCb "Failed to save"]) ∧
    (saveClip s acqOk ipcOk).1.completedChunks = [] ∧
    (saveClip s acqOk ipcOk).1.recorder = some r ∧
    (saveClip s acqOk ipcOk).1.status = RecorderStatus.buffering ∧
    (saveClip s acqOk ipcOk).1.stream = some sid ∧
    (saveClip s acqOk ipcOk).1.rotTimerOn = true := by
  obtain ⟨st, ch, cc, be, el, bs, bl, si, rec, str, t1, t2, ni⟩ := s
  simp only at hst hr hs hsrc hc
  subst hst hr hs hsrc hc
  simp [saveClip, saveClipAfter, saveClipRestart, saveChunksEv, recorderLive, hlive, hne]

/-- C1, witness. -/
theorem C1_witness :
    (saveClip bufStateW true true).2 = [Ev.fileSave [1, 2, 3] "clip", Ev.savedCb] ∧
    (saveClip bufStateW true true).1.status = RecorderStatus.buffering := by
  have h := C1_saveClip_completed bufStateW ⟨5, 7, RecState.recording⟩ 7 "screen:0:0"
    [1, 2, 3] true true rfl rfl rfl rfl rfl rfl (by decide)
  exact ⟨by simpa using h.1, h.2.2.2.1⟩

/-- C2: a rotation from a buffering state stops the current recorder and,
only after that (the events occur in exactly this order), starts a fresh
recorder on the very same stream: the stopped session's chunks replace
`completedChunks` wholesale, the rotation counter resets to `0`, no
`acquire` happens and no track of the stream is stopped, and the
controller stays buffering throughout. -/
theorem C2_rotation (s : RecCtrl) (r : MediaRec) (sid : Nat)
    (hst : s.status = RecorderStatus.buffering)
    (hr : s.recorder = some r) (hs : s.stream = some sid) :
    (rotateBuffer s).2 = [Ev.recorderStop r.id, Ev.recorderStart s.nextId sid] ∧
    (rotateBuffer s).1.completedChunks = s.chunks ∧
    (rotateBuffer s).1.chunks = [] ∧
    (rotateBuffer s).1.bufferElapsed = 0 ∧
    (rotateBuffer s).1.recorder
      = some { id := s.nextId, streamId := sid, state := RecState.recording } ∧
    (rotateBuffer s).1.stream = some sid ∧
    (rotateBuffer s).1.status = RecorderStatus.buffering ∧
    (∀ sid2, Ev.trackStopAll sid2 ∉ (rotateBuffer s).2) ∧
    (∀ sid2, Ev.acquire sid2 ∉ (rotateBuffer s).2) := by
  obtain ⟨st, ch, cc, be, el, bs, bl, si, rec, str, t1, t2, ni⟩ := s
  simp only at hst hr hs
  subst hst hr hs
  simp [rotateBuffer, createAndStartRecorder]

/-- C2, witness. -/
theorem C2_witness :
    (rotateBuffer bufStateW).2 = [Ev.recorderStop 5, Ev.recorderStart 8 7] ∧
    (rotateBuffer bufStateW).1.completedChunks = [10, 11] :=
  ⟨(C2_rotation bufStateW ⟨5, 7, RecState.recording⟩ 7 rfl rfl rfl).1,
    (C2_rotation bufStateW ⟨5, 7, RecState.recording⟩ 7 rfl rfl rfl).2.1⟩

/-- C4: `saveClip()` while buffering with no chunks anywhere performs
exactly the trace "stop the in-progress recorder, fire the error callback
once with the empty-buffer message, start a fresh recorder" — so the
error callback fires exactly once, no `fileSave` is attempted, and
buffering (a fresh recorder on the same stream plus the rotation timer)
is restarted with the controller still buffering. -/
theorem C4_saveClip_empty (s : RecCtrl) (r : MediaRec) (sid : Nat) (src : String)
    (acqOk ipcOk : Bool)
    (hst : s.status = RecorderStatus.buffering)
    (hr : s.recorder = some r)
    (hs : s.stream = some sid) (hsrc : s.sourceId = some src)
    (hch : s.chunks = []) (hcc : s.completedChunks = []) :
    (saveClip s acqOk ipcOk).2
      = [Ev.recorderStop r.id, Ev.errorCb "Buffer is empty, nothing to clip",
          Ev.recorderStart s.nextId sid] ∧
    (∀ ch tag, Ev.fileSave ch tag ∉ (saveClip s acqOk ipcOk).2) ∧
    (saveClip s acqOk ipcOk).1.status = RecorderStatus.buffering ∧
    (saveClip s acqOk ipcOk).1.recorder
      = some { id := s.nextId, streamId := sid, state := RecState.recording } ∧
    (saveClip s acqOk ipcOk).1.stream = some sid ∧
    (saveClip s acqOk ipcOk).1.rotTimerOn = true := by
  obtain ⟨st, ch, cc, be, el, bs, bl, si, rec, str, t1, t2, ni⟩ := s
  simp only at hst hr hs hsrc hch hcc
  subst hst hr hs hsrc hch hcc
  simp [saveClip, saveClipAfter, createAndStartRecorder]

/-- C4, witness. -/
theorem C4_witness :
    (saveClip bufStateEmptyW true true).2
      = [Ev.recorderStop 5, Ev.errorCb "Buffer is empty, nothing to clip",
          Ev.recorderStart 8 7] ∧
    (saveClip bufStateEmptyW true true).1.status = RecorderStatus.buffering :=
  ⟨(C4_saveClip_empty bufStateEmptyW ⟨5, 7, RecState.recording⟩ 7 "screen:0:0"
      true true rfl rfl rfl rfl rfl rfl).1,
    (C4_saveClip_empty bufStateEmptyW ⟨5, 7, RecState.recording⟩ 7 "screen:0:0"
      true true rfl rfl rfl rfl rfl rfl).2.2.1⟩

/-- C5: every controller operation invoked from an illegal state is a
silent no-op — the state is returned unchanged and no event (in
particular no callback) is performed: `startManualRecording` and
`startBuffering` whenever the status is not idle, `stopManualRecording`
unless the status is recording, and `stopBuffering`, `restartBuffering`
and `saveClip` unless the status is buffering. -/
theorem C5_illegal_noop (s : RecCtrl) (srcId : String) (acqOk ipcOk : Bool) :
    (s.status ≠ RecorderStatus.idle →
      startManualRecording s srcId acqOk = (s, []) ∧
      startBuffering s srcId acqOk = (s, [])) ∧
    (s.status ≠ RecorderStatus.recording → stopManualRecording s ipcOk = (s, [])) ∧
    (s.status ≠ RecorderStatus.buffering →
      stopBuffering s = (s, []) ∧ restartBuffering s acqOk = (s, []) ∧
      saveClip s acqOk ipcOk = (s, [])) := by
  refine ⟨fun h => ⟨?_, ?_⟩, fun h => ?_, fun h => ⟨?_, ?_, ?_⟩⟩
  · simp [startManualRecording, h]
  · simp [startBuffering, h]
  · rcases hr : s.recorder with _ | r <;> simp [stopManualRecording, hr, h]
  · rcases hr : s.recorder with _ | r <;> simp [stopBuffering, hr, h]
  · rcases hr : s.recorder with _ | r <;> simp [restartBuffering, hr, h]
  · rcases hr : s.recorder with _ | r <;> simp [saveClip, hr, h]

/-- C5, witness: a recording controller ignores every buffer operation
and a fresh start. -/
theorem C5_witness :
    startManualRecording recStateW "screen:0:0" true = (recStateW, []) ∧
    startBuffering recStateW "screen:0:0" true = (recStateW, []) ∧
    stopBuffering recStateW = (recStateW, []) ∧
    restartBuffering recStateW true = (recStateW, []) ∧
    saveClip recStateW true true = (recStateW, []) :=
  ⟨(C5_illegal_noop recStateW "screen:0:0" true true).1 (by decide) |>.1,
    (C5_illegal_noop recStateW "screen:0:0" true true).1 (by decide) |>.2,
    (C5_illegal_noop recStateW "screen:0:0" true true).2.2 (by decide) |>.1,
    (C5_illegal_noop recStateW "screen:0:0" true true).2.2 (by decide) |>.2.1,
    (C5_illegal_noop recStateW "screen:0:0" true true).2.2 (by decide) |>.2.2⟩

/-! ## C8: the 1800-second recording caps -/

theorem manualTickN_before (ipcOk : Bool) (s0 : RecCtrl)
    (ht : s0.timerOn = true) (he : s0.elapsed = 0) :
    ∀ n, n ≤ 1799 → manualTickN ipcOk n s0 = { s0 with elapsed := n } := by
  obtain ⟨st, ch, cc, be, el, bs, bl, si, rec, str, t1, t2, ni⟩ := s0
  simp only at ht he
  subst ht he
  intro n
  induction n with
  | zero => intro _; rfl
  | succ n ih =>
      intro h
      simp only [manualTickN]
      rw [ih (by omega)]
      simp [manualTick, show ¬ (1800 ≤ n + 1) from by omega]

theorem manualTickN_at_cap (ipcOk : Bool) (s0 : RecCtrl) (r : MediaRec)
    (hr : s0.recorder = some r) (hlive : r.state = RecState.recording)
    (ht : s0.timerOn = true) (he : s0.elapsed = 0) :
    (manualTickN ipcOk 1800 s0).status = RecorderStatus.idle ∧
    (manualTickN ipcOk 1800 s0).elapsed = 0 ∧
    (manualTickN ipcOk 1800 s0).timerOn = false ∧
    (manualTickN ipcOk 1800 s0).recorder = some { r with state := RecState.inactive } := by
  have hb := manualTickN_before ipcOk s0 ht he 1799 (by omega)
  have h1800 : manualTickN ipcOk 1800 s0
      = (manualTick (manualTickN ipcOk 1799 s0) ipcOk).1 := by
    rw [show (1800 : Nat) = 1799 + 1 from rfl, manualTickN]
  obtain ⟨rid, rsid, rst⟩ := r
  simp only at hlive
  subst hlive
  obtain ⟨st, ch, cc, be, el, bs, bl, si, rec, str, t1, t2, ni⟩ := s0
  simp only at hr ht he
  subst hr ht he
  simp only at hb
  rw [h1800, hb]
  simp [manualTick, manualOnStop, releaseStream, releaseEvents, saveChunksEv]

theorem manualTickN_after (ipcOk : Bool) (s0 : RecCtrl)
    (h : (manualTickN ipcOk 1800 s0).timerOn = false) :
    ∀ k, manualTickN ipcOk (1800 + k) s0 = manualTickN ipcOk 1800 s0 := by
  intro k
  induction k with
  | zero => rfl
  | succ k ih =>
      show manualTickN ipcOk ((1800 + k) + 1) s0 = _
      rw [manualTickN, ih]
      simp [manualTick, h]

theorem audioTickN_before (ipcOk : Bool) (a0 : AudioRec)
    (ht : a0.timerOn = true) (he : a0.elapsed = 0) :
    ∀ n, n ≤ 1799 → audioTickN ipcOk n a0 = { a0 with elapsed := n } := by
  obtain ⟨ir, el, t1, ra, ch⟩ := a0
  simp only at ht he
  subst ht he
  intro n
  induction n with
  | zero => intro _; rfl
  | succ n ih =>
      intro h
      simp only [audioTickN]
      rw [ih (by omega)]
      simp [audioTick, show ¬ (1800 ≤ n + 1) from by omega]

theorem audioTickN_at_cap (ipcOk : Bool) (a0 : AudioRec)
    (ht : a0.timerOn = true) (he : a0.elapsed = 0) (ha : a0.recorderActive = true) :
    audioTickN ipcOk 1800 a0 = ⟨false, 0, false, false, []⟩ := by
  have hb := audioTickN_before ipcOk a0 ht he 1799 (by omega)
  have h1800 : audioTickN ipcOk 1800 a0
      = (audioTick (audioTickN ipcOk 1799 a0) ipcOk).1 := by
    rw [show (1800 : Nat) = 1799 + 1 from rfl, audioTickN]
  obtain ⟨ir, el, t1, ra, ch⟩ := a0
  simp only at ht he ha
  subst ht he ha
  simp only at hb
  rw [h1800, hb]
  simp [audioTick, audioOnStop]

theorem audioTickN_after (ipcOk : Bool) (a0 : AudioRec)
    (h : (audioTickN ipcOk 1800 a0).timerOn = false) :
    ∀ k, audioTickN ipcOk (1800 + k) a0 = audioTickN ipcOk 1800 a0 := by
  intro k
  induction k with
  | zero => rfl
  | succ k ih =>
      show audioTickN ipcOk ((1800 + k) + 1) a0 = _
      rw [audioTickN, ih]
      simp [audioTick, h]

/-- C8: manual video recording and standalone audio recording both cap at
1800 seconds.  From a freshly started session (elapsed 0, timer running,
live recorder), an elapsed tick below 1800 only advances the counter
(status unchanged), the counter never exceeds 1800, and the 1800th tick
triggers the recorder's stop without user action: the manual controller
returns to idle with its recorder inactive, and the audio recorder ends
with `isRecording` false and its recorder stopped. -/
theorem C8_recording_cap (ipcOk : Bool) (s0 : RecCtrl) (r : MediaRec) (a0 : AudioRec)
    (hst : s0.status = RecorderStatus.recording)
    (hr : s0.recorder = some r) (hlive : r.state = RecState.recording)
    (ht : s0.timerOn = true) (he : s0.elapsed = 0)
    (hat : a0.timerOn = true) (hae : a0.elapsed = 0) (har : a0.recorderActive = true) :
    (∀ n, n < 1800 →
      (manualTickN ipcOk n s0).status = RecorderStatus.recording ∧
      (manualTickN ipcOk n s0).elapsed = n) ∧
    (∀ n, (manualTickN ipcOk n s0).elapsed ≤ 1800) ∧
    (manualTickN ipcOk 1800 s0).status = RecorderStatus.idle ∧
    (manualTickN ipcOk 1800 s0).recorder = some { r with state := RecState.inactive } ∧
    (∀ n, n < 1800 → (audioTickN ipcOk n a0).elapsed = n) ∧
    (∀ n, (audioTickN ipcOk n a0).elapsed ≤ 1800) ∧
    (audioTickN ipcOk 1800 a0).isRecording = false ∧
    (audioTickN ipcOk 1800 a0).recorderActive = false := by
  have hcap := manualTickN_at_cap ipcOk s0 r hr hlive ht he
  have hacap := audioTickN_at_cap ipcOk a0 hat hae har
  refine ⟨?_, ?_, hcap.1, hcap.2.2.2, ?_, ?_, by rw [hacap], by rw [hacap]⟩
  · intro n hn
    rw [manualTickN_before ipcOk s0 ht he n (by omega)]
    exact ⟨hst, rfl⟩
  · intro n
    rcases Nat.lt_or_ge n 1800 with hn | hn
    · rw [manualTickN_before ipcOk s0 ht he n (by omega)]
      have hp : ({ s0 with elapsed := n } : RecCtrl).elapsed = n := rfl
      omega
    · obtain ⟨k, rfl⟩ : ∃ k, n = 1800 + k := ⟨n - 1800, by omega⟩
      rw [manualTickN_after ipcOk s0 hcap.2.2.1 k, hcap.2.1]
      omega
  · intro n hn
    rw [audioTickN_before ipcOk a0 hat hae n (by omega)]
  · intro n
    rcases Nat.lt_or_ge n 1800 with hn | hn
    · rw [audioTickN_before ipcOk a0 hat hae n (by omega)]
      have hp : ({ a0 with elapsed := n } : AudioRec).elapsed = n := rfl
      omega
    · obtain ⟨k, rfl⟩ : ∃ k, n = 1800 + k := ⟨n - 1800, by omega⟩
      rw [audioTickN_after ipcOk a0 (by rw [hacap]) k, hacap]
      have hp : (⟨false, 0, false, false, []⟩ : AudioRec).elapsed = 0 := rfl
      omega

/-- C8, witness. -/
theorem C8_witness :
    (manualTickN true 1800 recStateW).status = RecorderStatus.idle ∧
    (audioTickN true 1800 audioStateW).isRecording = false := by
  have h := C8_recording_cap true recStateW ⟨2, 1, RecState.recording⟩ audioStateW
    rfl rfl rfl rfl rfl rfl rfl rfl
  exact ⟨h.2.2.1, h.2.2.2.2.2.2.1⟩

/-! ## File-system lemmas -/

theorem fsRead_fsWrite_self (fs : FS) (p : String) (c : Content) :
    fsRead (fsWrite fs p c) p = some c := by
  simp [fsRead, fsWrite]

theorem fsRead_fsRemove_self (fs : FS) (p : String) :
    fsRead (fsRemove fs p) p = none := by
  simp [fsRead, fsRemove]

theorem fsRead_fsRemove_ne (fs : FS) (p q : String) (h : q ≠ p) :
    fsRead (fsRemove fs p) q = fsRead fs q := by
  simp [fsRead, fsRemove, h]

theorem fsRead_fsWrite_ne (fs : FS) (p q : String) (c : Content) (h : q ≠ p) :
    fsRead (fsWrite fs p c) q = fsRead fs q := by
  simp [fsRead, fsWrite, h]

theorem fsExists_fsWrite_self (fs : FS) (p : String) (c : Content) :
    fsExists (fsWrite fs p c) p = true := by
  simp [fsExists, fsRead_fsWrite_self]

theorem fsExists_fsRemove_self (fs : FS) (p : String) :
    fsExists (fsRemove fs p) p = false := by
  simp [fsExists, fsRead_fsRemove_self]

theorem string_append_ne_left (s t : String) (h : t.data ≠ []) : s ++ t ≠ s := by
  intro he
  have hl := congrArg String.length he
  rw [String.length_append] at hl
  have ht : t.length = 0 := by omega
  have : t.data.length = 0 := ht
  exact h (List.length_eq_zero.mp this)

/-! ## C6: video faststart remux failure keeps the raw file -/

/-- C6: when the faststart remux step fails, `save-recording` still
resolves with the originally written path, the raw un-optimized file is
still there, any temporary file is gone, and the renderer's `onSaved`
callback still fires. -/
theorem C6_remux_failure_soft (fs : FS) (buffer : List Nat) (filename : Option String)
    (ts : String) (tempOnFail : Bool) (hne : buffer ≠ []) :
    (saveRecording fs buffer filename ts false tempOnFail).2
      = Except.ok (recordingsPath ++ "/" ++ filename.getD ("recording-" ++ ts ++ ".mp4")) ∧
    fsRead (saveRecording fs buffer filename ts false tempOnFail).1
        (recordingsPath ++ "/" ++ filename.getD ("recording-" ++ ts ++ ".mp4"))
      = some (Content.raw buffer) ∧
    fsExists (saveRecording fs buffer filename ts false tempOnFail).1
        (recordingsPath ++ "/" ++ filename.getD ("recording-" ++ ts ++ ".mp4") ++ ".tmp.mp4")
      = false ∧
    rendererSaveOutcome (saveRecording fs buffer filename ts false tempOnFail).2
      = [Ev.savedCb] := by
  set filePath := recordingsPath ++ "/" ++ filename.getD ("recording-" ++ ts ++ ".mp4")
    with hfp
  have hne2 : filePath ≠ filePath ++ ".tmp.mp4" :=
    Ne.symm (string_append_ne_left filePath ".tmp.mp4" (by decide))
  simp only [saveRecording, if_neg hne, Bool.false_eq_true, if_false, ← hfp]
  cases tempOnFail
  · by_cases hex : fsExists (fsWrite fs filePath (Content.raw buffer))
        (filePath ++ ".tmp.mp4") = true
    · simp only [Bool.false_eq_true, if_false, hex, if_true]
      refine ⟨by trivial, ?_, ?_, by trivial⟩
      · rw [fsRead_fsRemove_ne _ _ _ hne2, fsRead_fsWrite_self]
      · exact fsExists_fsRemove_self _ _
    · have hex2 : fsExists (fsWrite fs filePath (Content.raw buffer))
          (filePath ++ ".tmp.mp4") = false := by
        revert hex
        cases fsExists (fsWrite fs filePath (Content.raw buffer)) (filePath ++ ".tmp.mp4")
        · intro _
          rfl
        · intro h
          exact absurd rfl h
      simp only [Bool.false_eq_true, if_false, hex2]
      exact ⟨by trivial, fsRead_fsWrite_self _ _ _, by trivial, by trivial⟩
  · have hx : fsExists (fsWrite (fsWrite fs filePath (Content.raw buffer))
        (filePath ++ ".tmp.mp4") (Content.raw [])) (filePath ++ ".tmp.mp4") = true :=
      fsExists_fsWrite_self _ _ _
    simp only [if_true, hx]
    refine ⟨by trivial, ?_, ?_, by trivial⟩
    · rw [fsRead_fsRemove_ne _ _ _ hne2, fsRead_fsWrite_ne _ _ _ _ hne2,
        fsRead_fsWrite_self]
    · exact fsExists_fsRemove_self _ _

/-- C6, witness. -/
theorem C6_witness :
    (saveRecording fsEmpty [1, 2] (some "clip-x.mp4") "T" false true).2
      = Except.ok (recordingsPath ++ "/"
          ++ (some "clip-x.mp4").getD ("recording-" ++ "T" ++ ".mp4")) ∧
    fsRead (saveRecording fsEmpty [1, 2] (some "clip-x.mp4") "T" false true).1
        (recordingsPath ++ "/" ++ (some "clip-x.mp4").getD ("recording-" ++ "T" ++ ".mp4"))
      = some (Content.raw [1, 2]) := by
  have h := C6_remux_failure_soft fsEmpty [1, 2] (some "clip-x.mp4") "T" true (by decide)
  exact ⟨h.1, h.2.1⟩

/-! ## C7: audio transcode failure is a hard error -/

/-- C7, counterexample: the handler's catch block deletes only the
intermediate WebM.  FFmpeg is invoked with `-y finalPath` and a failed
run may already have created a partial output file there; the handler
never deletes `finalPath` (unlike `trim-audio`, which removes its
partial output), so after the rejected call a final-path file exists —
refuting "no final output file is produced". -/
theorem C7_counterexample :
    (saveAudioRecording fsEmpty [9] (some "a.mp3") "T" false true).2
      = Except.error "Audio conversion failed" ∧
    fsExists (saveAudioRecording fsEmpty [9] (some "a.mp3") "T" false true).1
        (audioDirPath ++ "/" ++ "a.mp3") = true := by
  decide

/-- C7, amended: when the MP3 transcode fails, `save-audio-recording`
rejects, the intermediate WebM file has been deleted, and the renderer
surfaces the rejection through the error callback; the handler itself
never produces an MP3 at the final path (there is no usable fallback
file), and when the failed transcode created nothing there no final-path
file exists — but a partial file the failed run left there is *not*
cleaned up. -/
theorem C7_amended (fs : FS) (buffer : List Nat) (filename : Option String)
    (ts : String) (partialOnFail : Bool) (hne : buffer ≠ [])
    (hfinal : fsExists fs (audioDirPath ++ "/" ++ filename.getD ("audio-" ++ ts ++ ".mp3"))
      = false) :
    (saveAudioRecording fs buffer filename ts false partialOnFail).2
      = Except.error "Audio conversion failed" ∧
    fsExists (saveAudioRecording fs buffer filename ts false partialOnFail).1
        (audioDirPath ++ "/audio-temp-" ++ ts ++ ".webm") = false ∧
    (∀ bytes, fsRead (saveAudioRecording fs buffer filename ts false partialOnFail).1
        (audioDirPath ++ "/" ++ filename.getD ("audio-" ++ ts ++ ".mp3"))
      ≠ some (Content.mp3 bytes)) ∧
    (partialOnFail = false →
      fsExists (saveAudioRecording fs buffer filename ts false partialOnFail).1
        (audioDirPath ++ "/" ++ filename.getD ("audio-" ++ ts ++ ".mp3")) = false) ∧
    rendererSaveOutcome (saveAudioRecording fs buffer filename ts false partialOnFail).2
      = [Ev.errorCb "Failed to save"] := by
  set tempPath := audioDirPath ++ "/audio-temp-" ++ ts ++ ".webm" with htp
  set finalPath := audioDirPath ++ "/" ++ filename.getD ("audio-" ++ ts ++ ".mp3") with hfp
  have hread : fsRead fs finalPath = none := by
    revert hfinal
    unfold fsExists
    cases fsRead fs finalPath
    · intro _
      rfl
    · intro h
      exact absurd h (by simp)
  cases partialOnFail
  · have hx : fsExists (fsWrite fs tempPath (Content.raw buffer)) tempPath = true :=
      fsExists_fsWrite_self _ _ _
    simp only [saveAudioRecording, if_neg hne, Bool.false_eq_true, if_false, ← htp, ← hfp, hx,
      if_true]
    refine ⟨by trivial, fsExists_fsRemove_self _ _, ?_, fun _ => ?_, by trivial⟩
    · intro bytes
      by_cases hq : finalPath = tempPath
      · rw [hq, fsRead_fsRemove_self]
        simp
      · rw [fsRead_fsRemove_ne _ _ _ hq, fsRead_fsWrite_ne _ _ _ _ hq, hread]
        simp
    · by_cases hq : finalPath = tempPath
      · rw [hq]
        exact fsExists_fsRemove_self _ _
      · unfold fsExists
        rw [fsRead_fsRemove_ne _ _ _ hq, fsRead_fsWrite_ne _ _ _ _ hq, hread]
        rfl
  · have hx : fsExists (fsWrite (fsWrite fs tempPath (Content.raw buffer))
        finalPath (Content.raw [])) tempPath = true := by
      by_cases hq : tempPath = finalPath
      · rw [hq]
        exact fsExists_fsWrite_self _ _ _
      · unfold fsExists
        rw [fsRead_fsWrite_ne _ _ _ _ hq, fsRead_fsWrite_self]
        rfl
    simp only [saveAudioRecording, if_neg hne, Bool.false_eq_true, if_false, if_true, ← htp,
      ← hfp, hx]
    refine ⟨by trivial, fsExists_fsRemove_self _ _, ?_, fun h => absurd h (by simp),
      by trivial⟩
    intro bytes
    by_cases hq : finalPath = tempPath
    · rw [hq, fsRead_fsRemove_self]
      simp
    · rw [fsRead_fsRemove_ne _ _ _ hq, fsRead_fsWrite_self]
      simp

/-- C7, witness. -/
theorem C7_witness :
    (saveAudioRecording fsEmpty [9] (some "a.mp3") "T" false false).2
      = Except.error "Audio conversion failed" ∧
    fsExists (saveAudioRecording fsEmpty [9] (some "a.mp3") "T" false false).1
        (audioDirPath ++ "/audio-temp-" ++ "T" ++ ".webm") = false ∧
    fsExists (saveAudioRecording fsEmpty [9] (some "a.mp3") "T" false false).1
        (audioDirPath ++ "/" ++ (some "a.mp3").getD ("audio-" ++ "T" ++ ".mp3")) = false := by
  have h := C7_amended fsEmpty [9] (some "a.mp3") "T" false (by decide) (by decide)
  exact ⟨h.1, h.2.1, h.2.2.2.1 rfl⟩

/-! ## C9: the audio-directory path check is a bare prefix test -/

/-- C9: the audio-file handlers validate with
`filePath.startsWith(audioPath)`, a bare string-prefix test.  A path in a
*sibling* directory whose name extends `audio` (here
`…/recordings/audioBackup/evil.mp3`) is not inside the recordings-audio
directory, yet the test accepts it: `delete-audio-file` unlinks it,
`read-audio-file` returns its bytes, and `trim-audio` writes a new file
next to it — all outside the directory, contradicting the claim and the
code's own "ensure the file is inside the audio directory" comment. -/
theorem C9_prefix_check_bypass :
    insideAudioDir (audioDirPath ++ "Backup/evil.mp3") = false ∧
    jsStartsWith (audioDirPath ++ "Backup/evil.mp3") audioDirPath = true ∧
    (deleteAudioFile
        (fsWrite fsEmpty (audioDirPath ++ "Backup/evil.mp3") (Content.mp3 [1, 2, 3]))
        (audioDirPath ++ "Backup/evil.mp3")).2 = Except.ok true ∧
    fsExists (deleteAudioFile
        (fsWrite fsEmpty (audioDirPath ++ "Backup/evil.mp3") (Content.mp3 [1, 2, 3]))
        (audioDirPath ++ "Backup/evil.mp3")).1
      (audioDirPath ++ "Backup/evil.mp3") = false ∧
    readAudioFile
        (fsWrite fsEmpty (audioDirPath ++ "Backup/evil.mp3") (Content.mp3 [1, 2, 3]))
        (audioDirPath ++ "Backup/evil.mp3") = some (Content.mp3 [1, 2, 3]) ∧
    fsExists (trimAudio
        (fsWrite fsEmpty (audioDirPath ++ "Backup/evil.mp3") (Content.mp3 [1, 2, 3]))
        (audioDirPath ++ "Backup/evil.mp3") 0 1 "T" true false).1
      (audioDirPath ++ "Backup/evil" ++ "_trimmed_" ++ "T" ++ ".mp3") = true := by
  decide

end VGB
